import Mathlib

/-!
Shallow embedding of the client-side request/session/authorization lifecycle
of the IMS inventory-management front end: the authentication Redux slice
(`authSlice`), the axios Gateway instance with its request and response
interceptors (`components/stock/Stock.js`, service section), the `PrivateRoute`
route guard, and the category-deletion UI guard of the routed Categories
screen. Machine state is explicit: `ClientState` carries the durable
`localStorage` token slot alongside the in-memory Redux auth state.
-/

namespace IMS

/-- JS truthiness of a nullable string (`!!x`): `null` and the empty string are
falsy, every other string is truthy. `none` models a `null` result from
`localStorage.getItem`. -/
def truthy : Option String → Bool
  | none => false
  | some s => !(s == "")

/-- Character-list matching at the head: `matchHead pat l` is true when `pat`
occurs at the start of `l`. -/
def matchHead : List Char → List Char → Bool
  | [], _ => true
  | _ :: _, [] => false
  | a :: as, b :: bs => a == b && matchHead as bs

/-- Occurrence of a character pattern anywhere in a character list. -/
def occursIn (pat : List Char) : List Char → Bool
  | [] => pat.isEmpty
  | b :: bs => matchHead pat (b :: bs) || occursIn pat bs

/-- JS `s.includes(pat)`: substring containment on the character lists. -/
def strIncludes (s pat : String) : Bool := occursIn pat.toList s.toList

/-- In-memory auth state of the Redux store (`authSlice` in part_008):
`token`, `isAuthenticated`, `loading`, `error`, `user`. -/
structure AuthState where
  token : Option String
  isAuthenticated : Bool
  loading : Bool
  error : Option String
  user : Option String
  deriving DecidableEq

/-- Combined client state: the durable `localStorage` slot under the fixed key
`token`, plus the in-memory Redux auth state. -/
structure ClientState where
  storage : Option String
  auth : AuthState
  deriving DecidableEq

/-- The slice's `initialState` (part_008 lines 17-23): `token` is
`localStorage.getItem('token')` and `isAuthenticated` its truthiness; no
network call is involved, the state is a function of durable storage alone. -/
def initialAuthState (storage : Option String) : AuthState :=
  { token := storage
    isAuthenticated := truthy storage
    loading := false
    error := none
    user := none }

/-- Reducer `setToken` (part_008 lines 33-37): stores the payload in memory,
sets `isAuthenticated` to `true` unconditionally, and writes the payload to
durable storage. -/
def setToken (payload : String) (s : ClientState) : ClientState :=
  { storage := some payload
    auth := { s.auth with token := some payload, isAuthenticated := true } }

/-- Reducer `logout` (part_008 lines 39-44): removes the stored token, clears
the in-memory token, flag and error. -/
def logout (s : ClientState) : ClientState :=
  { storage := none
    auth := { s.auth with token := none, isAuthenticated := false, error := none } }

/-- Reducer `setLoading` (part_008 lines 49-51). -/
def setLoading (b : Bool) (s : ClientState) : ClientState :=
  { s with auth := { s.auth with loading := b } }

/-- The literal credential-failure message tested by `setError`. -/
def invalidCredsMsg : String := "Invalid username or password"

/-- Reducer `setError` (part_008 lines 53-62): records the payload as the
error and stops loading; when the payload is truthy and contains
`'Invalid username or password'` it additionally clears the token, the
authenticated flag and durable storage. -/
def setError (payload : Option String) (s : ClientState) : ClientState :=
  let s1 : ClientState := { s with auth := { s.auth with error := payload, loading := false } }
  if truthy payload && strIncludes (payload.getD "") invalidCredsMsg then
    { s1 with
      storage := none,
      auth := { s1.auth with token := none, isAuthenticated := false } }
  else s1

/-- Reducer `clearError` (part_008 lines 64-66). -/
def clearError (s : ClientState) : ClientState :=
  { s with auth := { s.auth with error := none } }

/-- An outgoing request configuration: target, method, and the
`Authorization` header slot (absent unless an interceptor sets it). -/
structure RequestConfig where
  url : String
  method : String
  authorization : Option String
  deriving DecidableEq

/-- Request interceptor of the `api` axios instance (Stock.js lines 584-595):
it reads the token from durable storage at send time and, when the token is
truthy, sets `Authorization` to `Bearer <token>`; otherwise it leaves the
configuration untouched. -/
def requestInterceptor (storage : Option String) (config : RequestConfig) : RequestConfig :=
  if truthy storage then
    { config with authorization := some ("Bearer " ++ storage.getD "") }
  else config

/-- Which HTTP client a screen used for a call: the configured `api` instance
(with both interceptors installed) or the plain `axios` import (no
interceptors), as the Stock screen of part_004 does. -/
inductive CallPath where
  | viaApi
  | viaRawAxios
  deriving DecidableEq

/-- The configuration actually sent for a call, as a function of the call
path and the durable storage at send time: the `api` instance applies the
request interceptor; the plain `axios` client sends the configuration
as built. -/
def sendConfig : CallPath → Option String → RequestConfig → RequestConfig
  | CallPath.viaApi, storage, cfg => requestInterceptor storage cfg
  | CallPath.viaRawAxios, _, cfg => cfg

/-- The request issued by `fetchStockMovements` in the Stock screen
(part_004 lines 46-54): `axios.get('/api/stocks/')`. -/
def stockMovementsRequest : RequestConfig :=
  { url := "/api/stocks/", method := "GET", authorization := none }

/-- The Stock screen of part_004 imports plain `axios`, not the `api`
instance, so its calls take the uninstrumented path. -/
def stockMovementsPath : CallPath := CallPath.viaRawAxios

/-- An axios error as seen by the response interceptor:
`error.response?.status` (absent on network failure) and an opaque payload. -/
structure AxiosError where
  status : Option Nat
  detail : String
  deriving DecidableEq

/-- A successful HTTP response as seen by the response interceptor. -/
structure HttpResponse where
  status : Nat
  body : String
  deriving DecidableEq

/-- Success arm of the response interceptor (Stock.js line 605):
`(response) => response`. -/
def responseSuccessHandler (r : HttpResponse) : HttpResponse := r

/-- Output of the response interceptor's error arm: the client state after
its side effects, the `window.location.href` assignment if one was made, and
the error it rejects with (handed to the original caller). -/
structure InterceptorOutcome where
  state : ClientState
  redirect : Option String
  propagated : AxiosError
  deriving DecidableEq

/-- Error arm of the response interceptor (Stock.js lines 606-613): on status
401 it removes the token from durable storage and assigns
`window.location.href = '/login'`, then rejects with the original error; on
any other status (or no status at all) it rejects with the original error
and touches nothing. -/
def responseErrorInterceptor (e : AxiosError) (s : ClientState) : InterceptorOutcome :=
  if e.status = some 401 then
    { state := { s with storage := none }
      redirect := some "/login"
      propagated := e }
  else
    { state := s, redirect := none, propagated := e }

/-- Semantics of a hard navigation (an assignment to `window.location.href`):
the document reloads, so the Redux store is recreated from `initialAuthState`
over the durable storage as it stands. -/
def hardNavigate (s : ClientState) : ClientState :=
  { storage := s.storage, auth := initialAuthState s.storage }

/-- The spec's `invalidate(reason)`: the Gateway's 401 path — the response
interceptor's error arm on a 401 followed by the hard navigation it
triggers. -/
def invalidate (s : ClientState) : ClientState :=
  hardNavigate (responseErrorInterceptor { status := some 401, detail := "" } s).state

/-- The operations the spec's Session state machine is closed under, as
dispatched actions of the auth slice plus the Gateway's `invalidate`. -/
inductive AuthOp where
  | setToken (payload : String)
  | logout
  | invalidate
  | setLoading (b : Bool)
  | setError (payload : Option String)
  | clearError
  deriving DecidableEq

/-- Interpretation of one operation on the combined client state. -/
def applyOp : AuthOp → ClientState → ClientState
  | AuthOp.setToken p, s => setToken p s
  | AuthOp.logout, s => logout s
  | AuthOp.invalidate, s => invalidate s
  | AuthOp.setLoading b, s => setLoading b s
  | AuthOp.setError p, s => setError p s
  | AuthOp.clearError, s => clearError s

/-- Left-to-right application of a sequence of operations. -/
def applyOps (ops : List AuthOp) (s : ClientState) : ClientState :=
  ops.foldl (fun st op => applyOp op st) s

/-- The three session operations named by the spec's invariant. -/
def isSessionOp : AuthOp → Bool
  | AuthOp.setToken _ => true
  | AuthOp.logout => true
  | AuthOp.invalidate => true
  | _ => false

/-- Well-formedness of an operation: `setToken` is applied only to non-empty
tokens. -/
def wfOp : AuthOp → Bool
  | AuthOp.setToken p => !(p == "")
  | _ => true

/-- The two-store agreement invariant: `isAuthenticated` holds exactly when a
truthy token is present in both the in-memory state and durable storage. -/
abbrev storesAgree (s : ClientState) : Prop :=
  s.auth.isAuthenticated = (truthy s.auth.token && truthy s.storage)

/-- The authenticated/unauthenticated status of the Session. -/
def authStatus (s : ClientState) : Bool := s.auth.isAuthenticated

/-- Result of rendering a guarded route: a redirect instruction (target and
whether it replaces the current history entry) or the children themselves. -/
inductive RenderResult (α : Type) where
  | redirect (target : String) (replace : Bool)
  | render (children : α)
  deriving DecidableEq

/-- The `PrivateRoute` guard (Login.js lines 295-304): when the store's
`isAuthenticated` is false it renders `<Navigate to="/login" replace />`;
otherwise it renders its children unchanged. -/
def privateRoute {α : Type} (auth : AuthState) (children : α) : RenderResult α :=
  if !auth.isAuthenticated then RenderResult.redirect "/login" true
  else RenderResult.render children

/-- A category row as consumed by the routed Categories screen. -/
structure Category where
  id : Nat
  name : String
  description : Option String
  products_count : Option Nat
  deriving DecidableEq

/-- JS `category.products_count > 0`: an absent field compares false. -/
def countGtZero : Option Nat → Bool
  | none => false
  | some n => decide (0 < n)

/-- Disabled state of the delete button in the routed Categories screen
(`components/categories/Categories.js` lines 142-151):
`disabled={category.products_count > 0}`. -/
def deleteButtonDisabled (c : Category) : Bool := countGtZero c.products_count

/-- Effect of clicking the delete button for category `c`: a disabled button
ignores the click; an enabled one runs `handleDelete`, which dispatches
`deleteCategory c.id` (the `DELETE /api/categories/id/` thunk) only when the
confirmation dialog is answered affirmatively. Returns the id dispatched, if
any. -/
def deleteClickDispatch (c : Category) (confirmed : Bool) : Option Nat :=
  if deleteButtonDisabled c then none
  else if confirmed then some c.id else none

/-- A concrete authenticated client state used by concrete instantiations. -/
def authedState : ClientState :=
  { storage := some "abc"
    auth := { token := some "abc", isAuthenticated := true, loading := false
              error := none, user := none } }

/-- A concrete anonymous client state used by concrete instantiations. -/
def freshState : ClientState :=
  { storage := none, auth := initialAuthState none }

/-- A concrete category with associated products, used by concrete
instantiations. -/
def toolsCategory : Category :=
  { id := 7, name := "Tools", description := none, products_count := some 2 }

/-- One-step preservation: any single well-formed session operation leaves
the two stores in agreement, from any starting state. -/
theorem storesAgree_applyOp (op : AuthOp) (s : ClientState)
    (hsess : isSessionOp op = true) (hwf : wfOp op = true) :
    storesAgree (applyOp op s) := by
  cases op with
  | setToken p =>
      simp only [wfOp] at hwf
      simp [applyOp, setToken, storesAgree, truthy, hwf]
  | logout => simp [applyOp, logout, storesAgree, truthy]
  | invalidate =>
      simp [applyOp, invalidate, hardNavigate, responseErrorInterceptor,
        initialAuthState, storesAgree, truthy]
  | setLoading b => simp [isSessionOp] at hsess
  | setError p => simp [isSessionOp] at hsess
  | clearError => simp [isSessionOp] at hsess

/-- C3: for every sequence of well-formed session operations (`setToken` on
non-empty tokens, `logout`, `invalidate`), after each operation completes the
two stores agree: `isAuthenticated` holds exactly when a truthy token sits in
both the in-memory state and durable storage. Stated for the state after a
non-empty sequence; "after each operation" follows by instantiating the
theorem at every prefix, which is again a non-empty well-formed sequence. -/
theorem auth_stores_agree_after_session_ops :
    ∀ (ops : List AuthOp) (s : ClientState), ops ≠ [] →
      (∀ op ∈ ops, isSessionOp op = true ∧ wfOp op = true) →
      storesAgree (applyOps ops s) := by
  intro ops
  induction ops with
  | nil => intro s h _; exact absurd rfl h
  | cons op rest ih =>
      intro s _ hall
      cases rest with
      | nil =>
          have h1 := hall op (List.mem_cons_self op [])
          simpa [applyOps] using storesAgree_applyOp op s h1.1 h1.2
      | cons op2 t =>
          have hstep : applyOps (op :: op2 :: t) s = applyOps (op2 :: t) (applyOp op s) := by
            simp [applyOps]
          rw [hstep]
          exact ih (applyOp op s) (by simp) (fun o ho => hall o (List.mem_cons_of_mem _ ho))

/-- Witness for C3 at a concrete operation sequence and start state. -/
theorem auth_stores_agree_witness :
    storesAgree (applyOps [AuthOp.setToken "abc", AuthOp.logout, AuthOp.invalidate] freshState) :=
  auth_stores_agree_after_session_ops _ freshState (by decide) (by decide)

/-- C1: on any response whose status is 401, the Gateway's response
interceptor clears the token from durable storage and issues the redirect to
the login entry point as part of producing the rejection handed to the
caller (so both happen before the error propagates), for every client state
— hence for every initiating screen; and after the hard navigation the
redirect triggers, the in-memory Session is Anonymous. -/
theorem gateway_unauthorized_invalidates_session_before_propagating
    (e : AxiosError) (s : ClientState) (h : e.status = some 401) :
    (responseErrorInterceptor e s).state.storage = none ∧
    (responseErrorInterceptor e s).redirect = some "/login" ∧
    (responseErrorInterceptor e s).propagated = e ∧
    (hardNavigate (responseErrorInterceptor e s).state).auth.isAuthenticated = false ∧
    (hardNavigate (responseErrorInterceptor e s).state).auth.token = none := by
  simp [responseErrorInterceptor, h, hardNavigate, initialAuthState, truthy]

/-- Witness for C1 at a concrete 401 error and authenticated state. -/
theorem gateway_unauthorized_witness :
    (responseErrorInterceptor { status := some 401, detail := "expired" } authedState).state.storage
        = none ∧
    (responseErrorInterceptor { status := some 401, detail := "expired" } authedState).redirect
        = some "/login" ∧
    (responseErrorInterceptor { status := some 401, detail := "expired" } authedState).propagated
        = { status := some 401, detail := "expired" } ∧
    (hardNavigate (responseErrorInterceptor { status := some 401, detail := "expired" }
        authedState).state).auth.isAuthenticated = false ∧
    (hardNavigate (responseErrorInterceptor { status := some 401, detail := "expired" }
        authedState).state).auth.token = none :=
  gateway_unauthorized_invalidates_session_before_propagating
    { status := some 401, detail := "expired" } authedState rfl

/-- C7: on any response whose status is not a 401-equivalent — including a
network failure carrying no status at all — the Gateway's error arm touches
no state, issues no redirect, and rejects with the original error unmodified
(one attempt, no retry or back-off in the definition); and the success arm
returns every response unmodified. -/
theorem gateway_passes_through_non_unauthorized
    (e : AxiosError) (s : ClientState) (r : HttpResponse) (h : e.status ≠ some 401) :
    (responseErrorInterceptor e s).state = s ∧
    (responseErrorInterceptor e s).redirect = none ∧
    (responseErrorInterceptor e s).propagated = e ∧
    responseSuccessHandler r = r := by
  simp [responseErrorInterceptor, h, responseSuccessHandler]

/-- Witness for C7 at a concrete network failure and a concrete response. -/
theorem gateway_passthrough_witness :
    (responseErrorInterceptor { status := none, detail := "Network Error" } authedState).state
        = authedState ∧
    (responseErrorInterceptor { status := none, detail := "Network Error" } authedState).redirect
        = none ∧
    (responseErrorInterceptor { status := none, detail := "Network Error" } authedState).propagated
        = { status := none, detail := "Network Error" } ∧
    responseSuccessHandler { status := 200, body := "ok" } = { status := 200, body := "ok" } :=
  gateway_passes_through_non_unauthorized { status := none, detail := "Network Error" }
    authedState { status := 200, body := "ok" } (by decide)

/-- C6: the route guard renders its children, unchanged, exactly when the
Session is Authenticated at render time; when Anonymous it produces a
redirect to the login entry point that replaces the current history entry;
and the render immediately following an `invalidate` redirects. -/
theorem route_guard_renders_iff_authenticated
    {α : Type} (auth : AuthState) (kids : α) (s : ClientState) :
    (privateRoute auth kids = RenderResult.render kids ↔ auth.isAuthenticated = true) ∧
    (auth.isAuthenticated = false → privateRoute auth kids = RenderResult.redirect "/login" true) ∧
    privateRoute (invalidate s).auth kids = RenderResult.redirect "/login" true := by
  refine ⟨?_, ?_, ?_⟩
  · cases hb : auth.isAuthenticated <;> simp [privateRoute, hb]
  · intro hb; simp [privateRoute, hb]
  · simp [privateRoute, invalidate, hardNavigate, responseErrorInterceptor,
      initialAuthState, truthy]

/-- Witness for C6 at concrete children and states. -/
theorem route_guard_witness :
    (privateRoute authedState.auth (5 : Nat) = RenderResult.render 5 ↔
      authedState.auth.isAuthenticated = true) ∧
    (authedState.auth.isAuthenticated = false →
      privateRoute authedState.auth (5 : Nat) = RenderResult.redirect "/login" true) ∧
    privateRoute (invalidate authedState).auth (5 : Nat) = RenderResult.redirect "/login" true :=
  route_guard_renders_iff_authenticated authedState.auth 5 authedState

/-- C5: in the routed Categories screen, every category whose product count
is greater than zero has its delete button disabled, and a click on it
dispatches no `DELETE /api/categories/id/` call, however the confirmation
dialog would be answered. -/
theorem category_delete_blocked_when_products_exist
    (c : Category) (confirmed : Bool) (n : Nat)
    (hc : c.products_count = some n) (hn : 0 < n) :
    deleteButtonDisabled c = true ∧ deleteClickDispatch c confirmed = none := by
  have hd : deleteButtonDisabled c = true := by
    simp [deleteButtonDisabled, countGtZero, hc, hn]
  exact ⟨hd, by simp [deleteClickDispatch, hd]⟩

/-- Witness for C5 at a concrete category with two products. -/
theorem category_delete_blocked_witness :
    deleteButtonDisabled toolsCategory = true ∧ deleteClickDispatch toolsCategory true = none :=
  category_delete_blocked_when_products_exist toolsCategory true 2 rfl (by decide)

/-- C8: the Session's startup state is computed from durable storage alone
(the definition takes nothing else; no network is involved): a stored
non-empty token yields `Authenticated` with that token; an empty slot yields
`Anonymous`. -/
theorem initial_session_state_from_storage (st : Option String) :
    (st = none →
      (initialAuthState st).isAuthenticated = false ∧ (initialAuthState st).token = none) ∧
    (∀ t : String, st = some t → t ≠ "" →
      (initialAuthState st).isAuthenticated = true ∧ (initialAuthState st).token = some t) := by
  constructor
  · intro h; subst h; simp [initialAuthState, truthy]
  · intro t h ht; subst h; simp [initialAuthState, truthy, ht]

/-- Witness for C8 at a concrete stored token. -/
theorem initial_session_witness :
    (initialAuthState (some "abc")).isAuthenticated = true ∧
    (initialAuthState (some "abc")).token = some "abc" :=
  (initial_session_state_from_storage (some "abc")).2 "abc" rfl (by decide)

/-- C9: `logout` is idempotent on the whole observable state — applying it
twice equals applying it once — and from any state it leaves the client
logged out: flag false, no in-memory token, no stored token. -/
theorem logout_idempotent (s : ClientState) :
    logout (logout s) = logout s ∧
    (logout s).auth.isAuthenticated = false ∧
    (logout s).auth.token = none ∧
    (logout s).storage = none :=
  ⟨rfl, rfl, rfl, rfl⟩

/-- C10: `setToken` enforces no non-empty precondition: for every payload it
sets `isAuthenticated` to true and writes the payload to durable storage; in
particular the empty payload yields a state that is flagged authenticated
while its in-memory token is the empty (falsy) string. -/
theorem setToken_unconditionally_authenticates (s : ClientState) (payload : String) :
    (setToken payload s).auth.isAuthenticated = true ∧
    (setToken payload s).storage = some payload ∧
    (setToken payload s).auth.token = some payload ∧
    (setToken "" s).auth.isAuthenticated = true ∧
    truthy (setToken "" s).auth.token = false :=
  ⟨rfl, rfl, rfl, rfl, by simp [setToken, truthy]⟩

/-- Counterexample to C4 as stated: `setError` is not one of the three
session operations, yet dispatched with a payload containing
`'Invalid username or password'` on an authenticated state it flips the
status to unauthenticated. -/
theorem setError_breaks_two_transition_machine :
    isSessionOp (AuthOp.setError (some invalidCredsMsg)) = false ∧
    authStatus authedState = true ∧
    authStatus (applyOp (AuthOp.setError (some invalidCredsMsg)) authedState) = false := by
  refine ⟨rfl, rfl, ?_⟩
  decide

/-- C4 amended: classification of every operation's effect on the
authenticated status (a boolean — so there is no intermediate state):
`setToken` always yields Authenticated; `logout` and `invalidate` always
yield Anonymous; `setError` with a truthy payload containing
`'Invalid username or password'` also yields Anonymous; `setLoading`,
`clearError`, and `setError` with any other payload leave the status
unchanged. -/
theorem auth_status_transition_classification (s : ClientState) (op : AuthOp) :
    authStatus (applyOp op s) =
      match op with
      | AuthOp.setToken _ => true
      | AuthOp.logout => false
      | AuthOp.invalidate => false
      | AuthOp.setLoading _ => authStatus s
      | AuthOp.setError p =>
          if truthy p && strIncludes (p.getD "") invalidCredsMsg then false else authStatus s
      | AuthOp.clearError => authStatus s := by
  cases op with
  | setToken p => rfl
  | logout => rfl
  | invalidate =>
      simp [applyOp, invalidate, hardNavigate, responseErrorInterceptor,
        initialAuthState, authStatus, truthy]
  | setLoading b => rfl
  | setError p =>
      cases hc : truthy p && strIncludes (p.getD "") invalidCredsMsg <;>
        simp [applyOp, setError, authStatus, hc]
  | clearError => rfl

/-- Counterexample to C2 as stated: with the token `abc` in durable storage,
the stock-movements request of the Stock screen in part_004 — issued through
the plain axios client, not the Gateway instance — goes out with no
`Authorization` header at all. -/
theorem not_every_call_carries_bearer_header :
    truthy (some "abc") = true ∧
    (sendConfig stockMovementsPath (some "abc") stockMovementsRequest).authorization = none ∧
    (sendConfig stockMovementsPath (some "abc") stockMovementsRequest).authorization
      ≠ some ("Bearer " ++ "abc") := by
  decide

/-- C2 amended: every call issued through the Gateway's `api` instance is
augmented with `Authorization: Bearer <token>` read from durable storage at
send time whenever a non-empty token is stored — in particular a token
rotated by `setToken` between two calls is the one the next call carries —
while calls issued through the plain axios client go out with their
`Authorization` slot untouched. -/
theorem api_calls_carry_bearer_read_at_send_time
    (storage : Option String) (t : String) (cfg : RequestConfig) (s : ClientState) :
    (storage = some t → t ≠ "" →
      (sendConfig CallPath.viaApi storage cfg).authorization = some ("Bearer " ++ t)) ∧
    (t ≠ "" →
      (sendConfig CallPath.viaApi (setToken t s).storage cfg).authorization
        = some ("Bearer " ++ t)) ∧
    (sendConfig CallPath.viaRawAxios storage cfg).authorization = cfg.authorization := by
  refine ⟨?_, ?_, rfl⟩
  · intro h ht; subst h
    simp [sendConfig, requestInterceptor, truthy, ht]
  · intro ht
    simp [sendConfig, setToken, requestInterceptor, truthy, ht]

/-- Witness for the amended C2 at a concrete rotated token. -/
theorem api_calls_carry_bearer_witness :
    (sendConfig CallPath.viaApi (some "t2") stockMovementsRequest).authorization
      = some ("Bearer " ++ "t2") :=
  (api_calls_carry_bearer_read_at_send_time (some "t2") "t2" stockMovementsRequest
    freshState).1 rfl (by decide)

end IMS
